import Mathlib

/-!
Verification of the jean chat-backend supervision core.

This file gives a shallow embedding of the OpenCode run supervisor and its
event normalizer from `src-tauri/src/chat/opencode.rs`, of the shell escaping
helper from `src-tauri/src/chat/detached.rs`, and of the process registry
(modelled from the specification, since its module is not among the provided
source files).  Theorems at the end settle the frozen claims C1 to C10.

Modelling conventions:
- JSON values are a first-order inductive `Json`; objects are association
  lists (serde_json deduplicates keys while parsing, so objects reaching the
  normalizer are duplicate-free and lookup order is irrelevant).
- A polled log line is a `Line`: trim-empty, metadata header (contains the
  `_run_meta` marker), unparsable, or a parsed JSON value.  These are exactly
  the string-level cases the Rust loop distinguishes before dispatching.
- Wall-clock time is milliseconds since the supervisor started; each loop
  iteration is an `IterEnv` carrying the polled lines, the registry lookup
  result, the OS liveness answer and the current time.  The fresh UUID used
  for the synthesized question tool call is an environment parameter.
- Rust string byte lengths are modelled as character counts (the sources
  truncate on a valid boundary, so the two agree on single-byte text).
-/

namespace Jean

/-- JSON values as seen by the normalizer after serde_json parsing. -/
inductive Json where
  | null : Json
  | bool (b : Bool) : Json
  | num (n : Int) : Json
  | str (s : String) : Json
  | arr (elems : List Json) : Json
  | obj (fields : List (String × Json)) : Json

/-- Lookup of an object field by key (first match in the association list). -/
def findField : List (String × Json) → String → Option Json
  | [], _ => none
  | (k, v) :: rest, key => if k = key then some v else findField rest key

/-- Counterpart of `serde_json::Value::get` for objects. -/
def Json.get (j : Json) (key : String) : Option Json :=
  match j with
  | .obj fields => findField fields key
  | _ => none

/-- Counterpart of `serde_json::Value::as_str`. -/
def Json.asStr (j : Json) : Option String :=
  match j with
  | .str s => some s
  | _ => none

/-- Counterpart of `serde_json::Value::as_u64` (integers only, non-negative). -/
def Json.asU64 (j : Json) : Option Nat :=
  match j with
  | .num n => if 0 ≤ n then some n.toNat else none
  | _ => none

/-- Hexadecimal digit for the low range used by JSON control escapes. -/
def hexDigit (n : Nat) : Char :=
  if n < 10 then Char.ofNat (48 + n) else Char.ofNat (87 + n)

/-- Escape of one character inside a JSON string literal (serde_json rules). -/
def escapeJsonChar (c : Char) : List Char :=
  if c = '"' then ['\\', '"']
  else if c = '\\' then ['\\', '\\']
  else if c.toNat = 8 then ['\\', 'b']
  else if c.toNat = 9 then ['\\', 't']
  else if c.toNat = 10 then ['\\', 'n']
  else if c.toNat = 12 then ['\\', 'f']
  else if c.toNat = 13 then ['\\', 'r']
  else if c.toNat < 32 then ['\\', 'u', '0', '0', hexDigit (c.toNat / 16), hexDigit (c.toNat % 16)]
  else [c]

/-- JSON string literal rendering (serde_json rules). -/
def quoteJsonString (s : String) : String :=
  String.mk ('"' :: (s.data.map escapeJsonChar).flatten ++ ['"'])

mutual

/-- Counterpart of `serde_json::Value::to_string` (compact rendering). -/
def Json.render : Json → String
  | .null => "null"
  | .bool b => if b then "true" else "false"
  | .num n => toString n
  | .str s => quoteJsonString s
  | .arr elems => "[" ++ renderElems elems ++ "]"
  | .obj fields => "\x7b" ++ renderFields fields ++ "\x7d"

/-- Comma-separated rendering of array elements. -/
def renderElems : List Json → String
  | [] => ""
  | [j] => Json.render j
  | j :: rest => Json.render j ++ "," ++ renderElems rest

/-- Comma-separated rendering of object fields. -/
def renderFields : List (String × Json) → String
  | [] => ""
  | [(k, v)] => quoteJsonString k ++ ":" ++ Json.render v
  | (k, v) :: rest => quoteJsonString k ++ ":" ++ Json.render v ++ "," ++ renderFields rest

end

/-- Token usage record, as in `chat/types.rs` (`UsageData`). -/
structure UsageData where
  input_tokens : Nat
  output_tokens : Nat
  cache_read_input_tokens : Nat
  cache_creation_input_tokens : Nat
deriving DecidableEq

/-- Embedding of `parse_usage_data` from `chat/opencode.rs`. -/
def parse_usage_data (usage_obj : Json) : UsageData :=
  { input_tokens :=
      (((usage_obj.get "input_tokens" <|> usage_obj.get "inputTokens")
          <|> usage_obj.get "prompt_tokens").bind Json.asU64).getD 0
    output_tokens :=
      (((usage_obj.get "output_tokens" <|> usage_obj.get "outputTokens")
          <|> usage_obj.get "completion_tokens").bind Json.asU64).getD 0
    cache_read_input_tokens :=
      ((usage_obj.get "cache_read_input_tokens"
          <|> usage_obj.get "cacheReadInputTokens").bind Json.asU64).getD 0
    cache_creation_input_tokens :=
      ((usage_obj.get "cache_creation_input_tokens"
          <|> usage_obj.get "cacheCreationInputTokens").bind Json.asU64).getD 0 }

/-- Replacement step of `shell_escape`: each single quote becomes the four
characters quote, backslash, quote, quote, as in the Rust replace call. -/
def escape_quote_chars : List Char → List Char
  | [] => []
  | c :: rest =>
    if c = '\'' then '\'' :: '\\' :: '\'' :: '\'' :: escape_quote_chars rest
    else c :: escape_quote_chars rest

/-- Embedding of `shell_escape` from `chat/detached.rs`, over character lists:
wrap in single quotes, replacing every inner quote by the escape sequence. -/
def shell_escape (s : List Char) : List Char :=
  '\'' :: escape_quote_chars s ++ ['\'']

mutual

/-- POSIX shell quote removal, restricted to the constructs `shell_escape`
emits: single-quoted spans (everything literal until the closing quote) and
backslash escapes outside quotes.  Returns `none` on an unterminated quote or
a trailing backslash.  This models the environment (the shell), not the
repository. -/
def posix_unquote_go : Bool → List Char → Option (List Char)
  | true, [] => none
  | false, [] => some []
  | true, c :: rest =>
    if c = '\'' then posix_unquote_go false rest
    else (posix_unquote_go true rest).map (fun t => c :: t)
  | false, c :: rest =>
    if c = '\'' then posix_unquote_go true rest
    else if c = '\\' then posix_unquote_backslash rest
    else (posix_unquote_go false rest).map (fun t => c :: t)

/-- Continuation of `posix_unquote_go` after a backslash outside quotes: the
next character is taken literally; a trailing backslash is an error. -/
def posix_unquote_backslash : List Char → Option (List Char)
  | [] => none
  | d :: rest => (posix_unquote_go false rest).map (fun t => d :: t)

end

/-- POSIX quote removal of a whole token, starting outside quotes. -/
def posix_unquote (s : List Char) : Option (List Char) :=
  posix_unquote_go false s

lemma posix_unquote_go_escape (s : List Char) :
    posix_unquote_go true (escape_quote_chars s ++ ['\'']) = some s := by
  induction s with
  | nil => simp [escape_quote_chars, posix_unquote_go]
  | cons c rest ih =>
    by_cases hc : c = '\''
    · subst hc
      simp [escape_quote_chars, posix_unquote_go, posix_unquote_backslash, ih]
    · simp [escape_quote_chars, posix_unquote_go, hc, ih]

lemma posix_unquote_shell_escape (s : List Char) :
    posix_unquote (shell_escape s) = some s := by
  simp [posix_unquote, shell_escape, posix_unquote_go, posix_unquote_go_escape]

/-- Tool call record, as in `chat/types.rs` (`ToolCall`). -/
structure ToolCall where
  id : String
  name : String
  input : Json
  output : Option String
  parent_tool_use_id : Option String

/-- Ordered content block, as in `chat/types.rs` (`ContentBlock`). -/
inductive ContentBlock where
  | text (text : String) : ContentBlock
  | toolUse (tool_call_id : String) : ContentBlock
  | thinking (thinking : String) : ContentBlock

/-- Canonical events emitted to the frontend transport.  Each constructor
mirrors one of the payload structs in `chat/opencode.rs` on its channel
(chat chunk, tool use, tool block, tool result, thinking, done). -/
inductive Event where
  | chunk (session_id worktree_id content : String) : Event
  | toolUse (session_id worktree_id id name : String) (input : Json)
      (parent_tool_use_id : Option String) : Event
  | toolBlock (session_id worktree_id tool_call_id : String) : Event
  | toolResult (session_id worktree_id tool_use_id output : String) : Event
  | thinking (session_id worktree_id content : String) : Event
  | done (session_id worktree_id : String) : Event

/-- Mutable accumulator of `tail_opencode_output`: the local variables of the
tailing loop that line processing updates. -/
structure TailState where
  full_content : String
  opencode_session_id : String
  tool_calls : List ToolCall
  content_blocks : List ContentBlock
  completed : Bool
  usage : Option UsageData
  received_output : Bool
  last_event_type : String
  last_text_content : String

/-- Tail state at loop entry: everything empty, nothing received. -/
def initTailState : TailState :=
  ⟨"", "", [], [], false, none, false, "", ""⟩

/-- Embedding of `extract_text_content`: part text, then a direct text field,
then message content (string or joined text blocks), then a content field. -/
def extract_text_content (msg : Json) : Option String :=
  (((msg.get "part").bind (fun p => p.get "text")).bind Json.asStr
    <|> (msg.get "text").bind Json.asStr)
    <|> ((msg.get "message").bind (fun message =>
          (message.get "content").bind (fun content =>
            match content.asStr with
            | some text => some text
            | none =>
              match content with
              | .arr blocks =>
                let text_parts := blocks.filterMap (fun block =>
                  if (block.get "type").bind Json.asStr = some "text" then
                    (block.get "text").bind Json.asStr
                  else none)
                if text_parts.isEmpty then none else some (String.join text_parts)
              | _ => none))
          <|> (msg.get "content").bind Json.asStr)

/-- Embedding of `extract_tool_result_content`: string content directly, an
array of text blocks joined by newlines, anything else becomes empty. -/
def extract_tool_result_content (block : Json) : String :=
  match block.get "content" with
  | none => ""
  | some v =>
    match v with
    | .str s => s
    | .arr items =>
      String.intercalate "\n" (items.filterMap (fun item =>
        if (item.get "type").bind Json.asStr = some "text" then
          (item.get "text").bind Json.asStr
        else none))
    | _ => ""

/-- One key of the session-id capture: top level first, then nested under
the part object, then read as a string. -/
def session_key_lookup (msg : Json) (key : String) : Option String :=
  (msg.get key <|> (msg.get "part").bind (fun p => p.get key)).bind Json.asStr

/-- Embedding of the session-id capture loop: try the keys in order, take the
first non-empty hit (assign and break), otherwise keep the current value. -/
def capture_session_keys : List String → Json → String → String
  | [], _, current => current
  | key :: rest, msg, current =>
    match session_key_lookup msg key with
    | some sid => if sid.isEmpty then capture_session_keys rest msg current else sid
    | none => capture_session_keys rest msg current

/-- Session-id capture over the three key spellings tried by the source. -/
def capture_session_id (msg : Json) (current : String) : String :=
  capture_session_keys ["sessionID", "sessionId", "session_id"] msg current

/-- Refinement counterpart written from the specification words: the
identifier a line offers, namely the first non-empty value among the three
key spellings, or nothing.  Compared against `capture_session_id` in the
claim C4 theorem. -/
def first_nonempty_sid : List (Option String) → Option String
  | [] => none
  | some s :: rest => if s.isEmpty then first_nonempty_sid rest else some s
  | none :: rest => first_nonempty_sid rest

/-- Specification-side session capture: first non-empty candidate offered by
a line, across the three key spellings in priority order. -/
def spec_session_capture (msg : Json) : Option String :=
  first_nonempty_sid
    [session_key_lookup msg "sessionID",
     session_key_lookup msg "sessionId",
     session_key_lookup msg "session_id"]

/-- Tool-use id extraction: part callID, then id, then tool_use_id. -/
def tool_event_id (msg : Json) : String :=
  ((((msg.get "part").bind (fun p => p.get "callID") <|> msg.get "id")
      <|> msg.get "tool_use_id").bind Json.asStr).getD ""

/-- Tool name extraction: part tool, then name, then tool_name. -/
def tool_event_name (msg : Json) : String :=
  ((((msg.get "part").bind (fun p => p.get "tool") <|> msg.get "name")
      <|> msg.get "tool_name").bind Json.asStr).getD ""

/-- State object of a tool event: nested at part state. -/
def tool_event_state (msg : Json) : Option Json :=
  (msg.get "part").bind (fun p => p.get "state")

/-- Tool input extraction: part state input, then input, then arguments. -/
def tool_event_input (msg : Json) : Json :=
  ((((tool_event_state msg).bind (fun s => s.get "input") <|> msg.get "input")
      <|> msg.get "arguments")).getD Json.null

/-- Tool status extraction from part state status. -/
def tool_event_status (msg : Json) : String :=
  (((tool_event_state msg).bind (fun s => s.get "status")).bind Json.asStr).getD ""

/-- Trailing marker appended to truncated tool outputs. -/
def truncation_marker : String := "...(truncated)"

/-- Display conversion of an embedded tool output value: long strings are
cut at 2000 and marked, other values are rendered as JSON in full.  The
Rust code measures bytes and cuts on a valid boundary; here both are the
character count. -/
def truncate_tool_output (v : Json) : String :=
  match v.asStr with
  | some s => if s.length > 2000 then s.take 2000 ++ truncation_marker else s
  | none => v.render

/-- Output of a tool event: present only when the embedded status equals
completed, and then converted by `truncate_tool_output`. -/
def tool_event_output (msg : Json) : Option String :=
  if tool_event_status msg = "completed" then
    ((tool_event_state msg).bind (fun s => s.get "output")).map truncate_tool_output
  else none

/-- Embedding of `process_content_block`: one block of an assistant message
(text, nested tool use, or thinking), updating the accumulator and emitting
the matching events. -/
def process_content_block (sid wid : String) (block : Json) (st : TailState)
    (parent : Option String) : TailState × List Event :=
  let btype := ((block.get "type").bind Json.asStr).getD ""
  if btype = "text" then
    match (block.get "text").bind Json.asStr with
    | some text =>
      if text = "(no content)" then (st, [])
      else
        ({ st with full_content := st.full_content ++ text
                   content_blocks := st.content_blocks ++ [ContentBlock.text text] },
         [Event.chunk sid wid text])
    | none => (st, [])
  else if btype = "tool_use" then
    let id := ((block.get "id").bind Json.asStr).getD ""
    let name := ((block.get "name").bind Json.asStr).getD ""
    let input := (block.get "input").getD Json.null
    ({ st with tool_calls := st.tool_calls ++ [⟨id, name, input, none, parent⟩]
               content_blocks := st.content_blocks ++ [ContentBlock.toolUse id] },
     [Event.toolUse sid wid id name input parent, Event.toolBlock sid wid id])
  else if btype = "thinking" then
    match (block.get "thinking").bind Json.asStr with
    | some thinking =>
      ({ st with content_blocks := st.content_blocks ++ [ContentBlock.thinking thinking] },
       [Event.thinking sid wid thinking])
    | none => (st, [])
  else (st, [])

/-- Fold of `process_content_block` over the blocks of one message, in order,
with no parent tool use (the root-level call site). -/
def process_blocks (sid wid : String) : List Json → TailState → TailState × List Event
  | [], st => (st, [])
  | block :: rest, st =>
    let r := process_content_block sid wid block st none
    let r2 := process_blocks sid wid rest r.1
    (r2.1, r.2 ++ r2.2)

/-- Scan for blocks nested under message content, as the assistant branch
does after handling the top-level text. -/
def scan_message_blocks (sid wid : String) (msg : Json) (st : TailState) :
    TailState × List Event :=
  match (msg.get "message").bind (fun m => m.get "content") with
  | some (.arr blocks) => process_blocks sid wid blocks st
  | _ => (st, [])

/-- Text-bearing events (assistant, text, content): record the event type,
append extracted text (suppressing the no-content placeholder, which also
skips the rest of the line), then scan nested message blocks. -/
def handle_text_event (sid wid msg_type : String) (msg : Json) (st : TailState) :
    TailState × List Event :=
  let st1 := { st with last_event_type := msg_type }
  match extract_text_content msg with
  | some text =>
    if text = "(no content)" then (st1, [])
    else
      let st2 := { st1 with
        full_content := st1.full_content ++ text
        last_text_content := text
        content_blocks := st1.content_blocks ++ [ContentBlock.text text] }
      let r := scan_message_blocks sid wid msg st2
      (r.1, Event.chunk sid wid text :: r.2)
  | none => scan_message_blocks sid wid msg st1

/-- Tool-use events: record a tool call (with output when the event already
carries a completed result), push a ToolUse block, and emit tool use, tool
block, and possibly an immediate tool result. -/
def handle_tool_event (sid wid msg_type : String) (msg : Json) (st : TailState) :
    TailState × List Event :=
  let st1 := { st with last_event_type := msg_type }
  let id := tool_event_id msg
  let output := tool_event_output msg
  let st2 := { st1 with
    tool_calls := st1.tool_calls ++ [⟨id, tool_event_name msg, tool_event_input msg, output, none⟩]
    content_blocks := st1.content_blocks ++ [ContentBlock.toolUse id] }
  let evs := [Event.toolUse sid wid id (tool_event_name msg) (tool_event_input msg) none,
              Event.toolBlock sid wid id]
    ++ (match output with
        | some output_text => [Event.toolResult sid wid id output_text]
        | none => [])
  (st2, evs)

/-- Fill the output of the first tool call matching an id; no-op if absent. -/
def fill_tool_output : List ToolCall → String → String → List ToolCall
  | [], _, _ => []
  | tc :: rest, tid, out =>
    if tc.id = tid then { tc with output := some out } :: rest
    else tc :: fill_tool_output rest tid out

/-- Tool-result events: join the output onto the existing record by id and
emit a tool result event. -/
def handle_tool_result_event (sid wid : String) (msg : Json) (st : TailState) :
    TailState × List Event :=
  let st1 := { st with last_event_type := "tool_result" }
  let tool_id := ((msg.get "tool_use_id").bind Json.asStr).getD ""
  let output := ((msg.get "content" <|> msg.get "output").map (fun v =>
      match v.asStr with
      | some s => s
      | none => v.render)).getD ""
  ({ st1 with tool_calls := fill_tool_output st1.tool_calls tool_id output },
   [Event.toolResult sid wid tool_id output])

/-- Scan of user-message blocks for embedded tool results. -/
def process_user_blocks (sid wid : String) : List Json → TailState → TailState × List Event
  | [], st => (st, [])
  | block :: rest, st =>
    if ((block.get "type").bind Json.asStr).getD "" = "tool_result" then
      let tool_id := ((block.get "tool_use_id").bind Json.asStr).getD ""
      let output := extract_tool_result_content block
      let st2 := { st with tool_calls := fill_tool_output st.tool_calls tool_id output }
      let r := process_user_blocks sid wid rest st2
      (r.1, Event.toolResult sid wid tool_id output :: r.2)
    else
      process_user_blocks sid wid rest st

/-- User events: record the event type and scan message content for
embedded tool results. -/
def handle_user_event (sid wid : String) (msg : Json) (st : TailState) :
    TailState × List Event :=
  let st1 := { st with last_event_type := "user" }
  match (msg.get "message").bind (fun m => m.get "content") with
  | some (.arr blocks) => process_user_blocks sid wid blocks st1
  | _ => (st1, [])

/-- Thinking events: push a Thinking block and emit a thinking event. -/
def handle_thinking_event (sid wid : String) (msg : Json) (st : TailState) :
    TailState × List Event :=
  let st1 := { st with last_event_type := "thinking" }
  match (msg.get "thinking" <|> msg.get "content").bind Json.asStr with
  | some thinking =>
    ({ st1 with content_blocks := st1.content_blocks ++ [ContentBlock.thinking thinking] },
     [Event.thinking sid wid thinking])
  | none => (st1, [])

/-- Completion events (result, done, end): adopt a result string when no
content was accumulated, extract usage, and set the completed flag.  The
last event type is not updated by this branch. -/
def handle_result_event (msg : Json) (st : TailState) : TailState :=
  let st1 :=
    if st.full_content.isEmpty then
      match (msg.get "result").bind Json.asStr with
      | some result => { st with full_content := result }
      | none => st
    else st
  let st2 :=
    match msg.get "usage" with
    | some usage_obj => { st1 with usage := some (parse_usage_data usage_obj) }
    | none => st1
  { st2 with completed := true }

/-- Step-finish events: on a terminal stop reason, extract usage from part
tokens (or a usage field) and set the completed flag. -/
def handle_step_finish_event (msg : Json) (st : TailState) : TailState :=
  let st1 := { st with last_event_type := "step_finish" }
  let part := msg.get "part"
  match (part.bind (fun p => p.get "reason") <|> msg.get "stop_reason").bind Json.asStr with
  | some reason =>
    if reason = "stop" ∨ reason = "end_turn" then
      let st2 :=
        match part.bind (fun p => p.get "tokens") with
        | some tokens_obj => { st1 with usage := some (parse_usage_data tokens_obj) }
        | none =>
          match msg.get "usage" with
          | some usage_obj => { st1 with usage := some (parse_usage_data usage_obj) }
          | none => st1
      { st2 with completed := true }
    else st1
  | none => st1

/-- Dispatch of one parsed JSON line: mark output received, capture the
session id, then branch on the type tag exactly as the Rust match does. -/
def handle_json_line (sid wid : String) (msg : Json) (st : TailState) :
    TailState × List Event :=
  let st0 := { st with
    received_output := true
    opencode_session_id := capture_session_id msg st.opencode_session_id }
  let msg_type := ((msg.get "type").bind Json.asStr).getD ""
  if msg_type = "assistant" ∨ msg_type = "text" ∨ msg_type = "content" then
    handle_text_event sid wid msg_type msg st0
  else if msg_type = "tool_use" ∨ msg_type = "tool_call" then
    handle_tool_event sid wid msg_type msg st0
  else if msg_type = "tool_result" then
    handle_tool_result_event sid wid msg st0
  else if msg_type = "user" then
    handle_user_event sid wid msg st0
  else if msg_type = "thinking" then
    handle_thinking_event sid wid msg st0
  else if msg_type = "result" ∨ msg_type = "done" ∨ msg_type = "end" then
    (handle_result_event msg st0, [])
  else if msg_type = "step_finish" then
    (handle_step_finish_event msg st0, [])
  else if msg_type = "step_start" then
    ({ st0 with last_event_type := "step_start" }, [])
  else
    (st0, [])

/-- One polled log line, classified as the Rust loop does before parsing:
whitespace-only, run-metadata header, JSON parse failure, or parsed value. -/
inductive Line where
  | empty : Line
  | meta : Line
  | unparsable : Line
  | json (msg : Json) : Line

/-- Processing of one polled line: empty and metadata lines are skipped
before the received-output flag is set; unparsable lines only set the flag;
parsed lines are dispatched. -/
def processLine (sid wid : String) (st : TailState) : Line → TailState × List Event
  | .empty => (st, [])
  | .meta => (st, [])
  | .unparsable => ({ st with received_output := true }, [])
  | .json msg => handle_json_line sid wid msg st

/-- Processing of all lines of one poll, in order, concatenating events. -/
def processLines (sid wid : String) : TailState → List Line → TailState × List Event
  | st, [] => (st, [])
  | st, l :: rest =>
    let r := processLine sid wid st l
    let r2 := processLines sid wid r.1 rest
    (r2.1, r.2 ++ r2.2)

/-- Environment of one supervision-loop iteration: the lines this poll
returned, the registry lookup for the session, the OS liveness answer for
the stored pid, and the current time in milliseconds since launch. -/
structure IterEnv where
  lines : List Line
  registry_running : Bool
  process_alive : Bool
  now : Nat

/-- Final value of a run, as in `OpenCodeResponse`. -/
structure OpenCodeResponse where
  content : String
  session_id : String
  tool_calls : List ToolCall
  content_blocks : List ContentBlock
  cancelled : Bool
  usage : Option UsageData

/-- Ghost tag recording which exit condition terminated the loop. -/
inductive ExitCause where
  | completedSignal : ExitCause
  | externalCancel : ExitCause
  | deadProcess : ExitCause
  | stall : ExitCause
  | startupTimeout : ExitCause
deriving DecidableEq

/-- Terminal observation of a run: the returned response, the full ordered
event emission log, whether the loop issued a kill to the subprocess, and
the ghost exit tag. -/
structure RunOutcome where
  response : OpenCodeResponse
  events : List Event
  killed : Bool
  exit : ExitCause

/-- Startup timeout of 120 seconds, in milliseconds. -/
def startup_timeout : Nat := 120000

/-- Dead-process timeout of 2 seconds, in milliseconds. -/
def dead_process_timeout : Nat := 2000

/-- Interactive-stall timeout of 30 seconds, in milliseconds. -/
def interactive_stall_timeout : Nat := 30000

/-- Fallback question text when no text content was seen before a stall. -/
def default_stall_question : String := "OpenCode is waiting for your input."

/-- Input value of the synthesized AskUserQuestion tool call. -/
def ask_user_input (question : String) : Json :=
  Json.obj [("questions", Json.arr [Json.obj
    [("question", Json.str question),
     ("options", Json.arr []),
     ("allowCustom", Json.bool true)]])]

/-- Response assembled from the accumulator at a terminal state. -/
def mk_response (st : TailState) (cancelled : Bool) (usage : Option UsageData) :
    OpenCodeResponse :=
  ⟨st.full_content, st.opencode_session_id, st.tool_calls, st.content_blocks,
   cancelled, usage⟩

/-- Event types whose being most recent makes a silent, alive process count
as an interactive stall. -/
abbrev stall_event_type (t : String) : Prop :=
  t = "text" ∨ t = "content" ∨ t = "assistant" ∨ t = "step_start"

/-- Embedding of the supervision loop of `tail_opencode_output`.  Each
iteration refreshes the last-output time on a non-empty poll, processes all
polled lines, then evaluates the exit checks in source order: completion,
external cancellation, and then, depending on whether output was ever
received, the dead-process and interactive-stall checks or the startup
check.  The uuid argument stands for the fresh UUID of the synthesized
question tool call; `none` means the trace ended with the loop still
running. -/
def tailLoop (sid wid uuid : String) :
    TailState → Nat → List Event → List IterEnv → Option RunOutcome
  | _, _, _, [] => none
  | st, lastOut, acc, iter :: rest =>
    let lastOut2 := if iter.lines.isEmpty then lastOut else iter.now
    let r := processLines sid wid st iter.lines
    let acc2 := acc ++ r.2
    if r.1.completed then
      some ⟨mk_response r.1 false r.1.usage, acc2 ++ [Event.done sid wid],
            false, ExitCause.completedSignal⟩
    else if iter.registry_running = false then
      some ⟨mk_response r.1 true r.1.usage, acc2, false, ExitCause.externalCancel⟩
    else if r.1.received_output then
      if iter.process_alive = false ∧ iter.now - lastOut2 > dead_process_timeout then
        if !r.1.full_content.isEmpty || !r.1.tool_calls.isEmpty then
          some ⟨mk_response r.1 false r.1.usage, acc2 ++ [Event.done sid wid],
                false, ExitCause.deadProcess⟩
        else
          some ⟨mk_response r.1 true r.1.usage, acc2, false, ExitCause.deadProcess⟩
      else if iter.process_alive = true ∧ iter.now - lastOut2 > interactive_stall_timeout
          ∧ stall_event_type r.1.last_event_type then
        let ask_id := "opencode_ask_" ++ uuid
        let question :=
          if r.1.last_text_content.isEmpty then default_stall_question
          else r.1.last_text_content
        let st3 := { r.1 with
          tool_calls := r.1.tool_calls
            ++ [⟨ask_id, "AskUserQuestion", ask_user_input question, none, none⟩]
          content_blocks := r.1.content_blocks ++ [ContentBlock.toolUse ask_id] }
        some ⟨mk_response st3 false none,
              acc2 ++ [Event.toolUse sid wid ask_id "AskUserQuestion" (ask_user_input question) none,
                       Event.toolBlock sid wid ask_id,
                       Event.done sid wid],
              true, ExitCause.stall⟩
      else
        tailLoop sid wid uuid r.1 lastOut2 acc2 rest
    else
      if iter.now > startup_timeout then
        some ⟨mk_response r.1 true r.1.usage, acc2, false, ExitCause.startupTimeout⟩
      else
        tailLoop sid wid uuid r.1 lastOut2 acc2 rest

/-- Whole tail of one run from a fresh state at time zero. -/
def runTail (sid wid uuid : String) (trace : List IterEnv) : Option RunOutcome :=
  tailLoop sid wid uuid initTailState 0 [] trace

/-- Modelled from the spec: the Process Registry module (`chat/registry.rs`)
is not among the provided source files; section 4.3 of the specification
describes it as a shared map from session id to pid where register is an
overwriting insert, unregister removes the entry (no-op when absent) and
is-running is entry existence. -/
abbrev Registry : Type := List (String × Nat)

/-- Modelled from the spec: overwriting insert of a registry entry. -/
def register_process (reg : Registry) (sid : String) (pid : Nat) : Registry :=
  (sid, pid) :: reg.filter (fun e => !(e.1 == sid))

/-- Modelled from the spec: removal of a registry entry, no-op when absent. -/
def unregister_process (reg : Registry) (sid : String) : Registry :=
  reg.filter (fun e => !(e.1 == sid))

/-- Modelled from the spec: is-running means the entry exists. -/
def is_process_running (reg : Registry) (sid : String) : Bool :=
  reg.any (fun e => e.1 == sid)

/-- Embedding of the registry interaction of `execute_opencode_detached`:
register the spawned pid, tail the output, and unregister the session when
the tail call returns, whatever the outcome.  Launch plumbing (binary
discovery, argument building, spawning) is outside the claims and omitted;
`none` again means the trace ended with the loop still running, so the call
has not returned. -/
def execute_opencode_detached (reg : Registry) (sid wid uuid : String) (pid : Nat)
    (trace : List IterEnv) : Option (RunOutcome × Registry) :=
  let reg2 := register_process reg sid pid
  match runTail sid wid uuid trace with
  | some out => some (out, unregister_process reg2 sid)
  | none => none

/-- Exit condition one: the normalizer signalled completion. -/
abbrev cond_completed (st : TailState) : Prop := st.completed = true

/-- Exit condition two: the registry no longer holds the session. -/
abbrev cond_external_cancel (iter : IterEnv) : Prop := iter.registry_running = false

/-- Exit condition three: output was received, the process is dead, and no
new output arrived within the dead-process timeout. -/
abbrev cond_dead_process (st : TailState) (iter : IterEnv) (lastOut : Nat) : Prop :=
  st.received_output = true ∧ iter.process_alive = false
    ∧ iter.now - lastOut > dead_process_timeout

/-- Exit condition four: output was received, the process is alive, no new
output arrived within the stall timeout, and the most recent event type is
content-producing. -/
abbrev cond_stall (st : TailState) (iter : IterEnv) (lastOut : Nat) : Prop :=
  st.received_output = true ∧ iter.process_alive = true
    ∧ iter.now - lastOut > interactive_stall_timeout
    ∧ stall_event_type st.last_event_type

/-- Exit condition five: no output was ever received and the startup
timeout elapsed. -/
abbrev cond_startup (st : TailState) (iter : IterEnv) : Prop :=
  st.received_output = false ∧ iter.now > startup_timeout

/-- First-true pick over the five exit conditions, in the fixed priority
order stated by the specification. -/
def exit_priority (st : TailState) (iter : IterEnv) (lastOut : Nat) : Option ExitCause :=
  if cond_completed st then some ExitCause.completedSignal
  else if cond_external_cancel iter then some ExitCause.externalCancel
  else if cond_dead_process st iter lastOut then some ExitCause.deadProcess
  else if cond_stall st iter lastOut then some ExitCause.stall
  else if cond_startup st iter then some ExitCause.startupTimeout
  else none

/-- The claim C6: `shell_escape` wraps its input in single quotes with every
inner single quote replaced by the quote-backslash-quote-quote sequence; on
the concrete inputs of the claim it produces the expected tokens, and POSIX
quote removal of the escaped token reproduces the original string for every
input. -/
theorem c6_shell_escape_round_trip :
    shell_escape ['i', 't', '\'', 's']
      = ['\'', 'i', 't', '\'', '\\', '\'', '\'', 's', '\'']
    ∧ shell_escape [] = ['\'', '\'']
    ∧ ∀ s : List Char, posix_unquote (shell_escape s) = some s :=
  ⟨rfl, rfl, posix_unquote_shell_escape⟩

/-- Usage object of the claim C7 in snake_case vocabulary. -/
def c7_snake : Json :=
  Json.obj [("input_tokens", Json.num 100), ("output_tokens", Json.num 200),
            ("cache_read_input_tokens", Json.num 50),
            ("cache_creation_input_tokens", Json.num 25)]

/-- Usage object of the claim C7 in camelCase vocabulary. -/
def c7_camel : Json :=
  Json.obj [("inputTokens", Json.num 100), ("outputTokens", Json.num 200),
            ("cacheReadInputTokens", Json.num 50),
            ("cacheCreationInputTokens", Json.num 25)]

/-- Usage object of the claim C7 in the OpenAI-style vocabulary.  The code
has OpenAI-specific names only for the input and output counters; the two
cache counters have no third spelling, so they keep the snake_case one. -/
def c7_openai : Json :=
  Json.obj [("prompt_tokens", Json.num 100), ("completion_tokens", Json.num 200),
            ("cache_read_input_tokens", Json.num 50),
            ("cache_creation_input_tokens", Json.num 25)]

/-- The claim C7: the three vocabulary variants of the same usage counters
normalize to the same four-field record, absent counters default to zero,
and the snake_case spelling has priority over the alternate vocabulary when
both are present. -/
theorem c7_usage_normalization :
    parse_usage_data c7_snake = ⟨100, 200, 50, 25⟩
    ∧ parse_usage_data c7_camel = ⟨100, 200, 50, 25⟩
    ∧ parse_usage_data c7_openai = ⟨100, 200, 50, 25⟩
    ∧ parse_usage_data c7_camel = parse_usage_data c7_snake
    ∧ parse_usage_data c7_openai = parse_usage_data c7_snake
    ∧ parse_usage_data (Json.obj []) = ⟨0, 0, 0, 0⟩
    ∧ parse_usage_data (Json.obj [("prompt_tokens", Json.num 7), ("input_tokens", Json.num 1)])
        = ⟨1, 0, 0, 0⟩ :=
  ⟨rfl, rfl, rfl, rfl, rfl, rfl, rfl⟩

lemma process_content_block_sid (sid wid : String) (block : Json) (st : TailState)
    (parent : Option String) :
    ((process_content_block sid wid block st parent).1).opencode_session_id
      = st.opencode_session_id := by
  unfold process_content_block
  dsimp only
  split_ifs <;> (repeat' split) <;> simp

lemma process_content_block_received (sid wid : String) (block : Json) (st : TailState)
    (parent : Option String) :
    ((process_content_block sid wid block st parent).1).received_output
      = st.received_output := by
  unfold process_content_block
  dsimp only
  split_ifs <;> (repeat' split) <;> simp

lemma process_blocks_sid (sid wid : String) (blocks : List Json) (st : TailState) :
    ((process_blocks sid wid blocks st).1).opencode_session_id
      = st.opencode_session_id := by
  induction blocks generalizing st with
  | nil => simp [process_blocks]
  | cons b rest ih =>
    simp only [process_blocks]
    rw [ih, process_content_block_sid]

lemma process_blocks_received (sid wid : String) (blocks : List Json) (st : TailState) :
    ((process_blocks sid wid blocks st).1).received_output = st.received_output := by
  induction blocks generalizing st with
  | nil => simp [process_blocks]
  | cons b rest ih =>
    simp only [process_blocks]
    rw [ih, process_content_block_received]

lemma scan_message_blocks_sid (sid wid : String) (msg : Json) (st : TailState) :
    ((scan_message_blocks sid wid msg st).1).opencode_session_id
      = st.opencode_session_id := by
  unfold scan_message_blocks
  repeat' split <;> simp [process_blocks_sid]

lemma scan_message_blocks_received (sid wid : String) (msg : Json) (st : TailState) :
    ((scan_message_blocks sid wid msg st).1).received_output = st.received_output := by
  unfold scan_message_blocks
  repeat' split <;> simp [process_blocks_received]

lemma handle_text_event_sid (sid wid msg_type : String) (msg : Json) (st : TailState) :
    ((handle_text_event sid wid msg_type msg st).1).opencode_session_id
      = st.opencode_session_id := by
  unfold handle_text_event
  repeat' split <;> simp [scan_message_blocks_sid]

lemma handle_text_event_received (sid wid msg_type : String) (msg : Json) (st : TailState) :
    ((handle_text_event sid wid msg_type msg st).1).received_output
      = st.received_output := by
  unfold handle_text_event
  repeat' split <;> simp [scan_message_blocks_received]

lemma process_user_blocks_sid (sid wid : String) (blocks : List Json) (st : TailState) :
    ((process_user_blocks sid wid blocks st).1).opencode_session_id
      = st.opencode_session_id := by
  induction blocks generalizing st with
  | nil => simp [process_user_blocks]
  | cons b rest ih =>
    simp only [process_user_blocks]
    split
    · rw [ih]
    · rw [ih]

lemma process_user_blocks_received (sid wid : String) (blocks : List Json) (st : TailState) :
    ((process_user_blocks sid wid blocks st).1).received_output = st.received_output := by
  induction blocks generalizing st with
  | nil => simp [process_user_blocks]
  | cons b rest ih =>
    simp only [process_user_blocks]
    split
    · rw [ih]
    · rw [ih]

lemma handle_user_event_sid (sid wid : String) (msg : Json) (st : TailState) :
    ((handle_user_event sid wid msg st).1).opencode_session_id
      = st.opencode_session_id := by
  unfold handle_user_event
  repeat' split <;> simp [process_user_blocks_sid]

lemma handle_user_event_received (sid wid : String) (msg : Json) (st : TailState) :
    ((handle_user_event sid wid msg st).1).received_output = st.received_output := by
  unfold handle_user_event
  repeat' split <;> simp [process_user_blocks_received]

lemma handle_result_event_sid (msg : Json) (st : TailState) :
    (handle_result_event msg st).opencode_session_id = st.opencode_session_id := by
  unfold handle_result_event
  dsimp only
  repeat' (first | split | simp)

lemma handle_result_event_received (msg : Json) (st : TailState) :
    (handle_result_event msg st).received_output = st.received_output := by
  unfold handle_result_event
  dsimp only
  repeat' (first | split | simp)

lemma handle_step_finish_event_sid (msg : Json) (st : TailState) :
    (handle_step_finish_event msg st).opencode_session_id
      = st.opencode_session_id := by
  unfold handle_step_finish_event
  dsimp only
  repeat' (first | split | simp)

lemma handle_step_finish_event_received (msg : Json) (st : TailState) :
    (handle_step_finish_event msg st).received_output = st.received_output := by
  unfold handle_step_finish_event
  dsimp only
  repeat' (first | split | simp)

lemma handle_tool_event_sid (sid wid msg_type : String) (msg : Json) (st : TailState) :
    ((handle_tool_event sid wid msg_type msg st).1).opencode_session_id
      = st.opencode_session_id := by
  simp [handle_tool_event]

lemma handle_tool_event_received (sid wid msg_type : String) (msg : Json) (st : TailState) :
    ((handle_tool_event sid wid msg_type msg st).1).received_output
      = st.received_output := by
  simp [handle_tool_event]

lemma handle_tool_result_event_sid (sid wid : String) (msg : Json) (st : TailState) :
    ((handle_tool_result_event sid wid msg st).1).opencode_session_id
      = st.opencode_session_id := by
  simp [handle_tool_result_event]

lemma handle_tool_result_event_received (sid wid : String) (msg : Json) (st : TailState) :
    ((handle_tool_result_event sid wid msg st).1).received_output
      = st.received_output := by
  simp [handle_tool_result_event]

lemma handle_thinking_event_sid (sid wid : String) (msg : Json) (st : TailState) :
    ((handle_thinking_event sid wid msg st).1).opencode_session_id
      = st.opencode_session_id := by
  unfold handle_thinking_event
  repeat' split <;> simp

lemma handle_thinking_event_received (sid wid : String) (msg : Json) (st : TailState) :
    ((handle_thinking_event sid wid msg st).1).received_output
      = st.received_output := by
  unfold handle_thinking_event
  repeat' split <;> simp

lemma handle_json_line_sid (sid wid : String) (msg : Json) (st : TailState) :
    ((handle_json_line sid wid msg st).1).opencode_session_id
      = capture_session_id msg st.opencode_session_id := by
  unfold handle_json_line
  dsimp only
  split_ifs <;>
    simp [handle_text_event_sid, handle_tool_event_sid, handle_tool_result_event_sid,
      handle_user_event_sid, handle_thinking_event_sid, handle_result_event_sid,
      handle_step_finish_event_sid]

lemma handle_json_line_received (sid wid : String) (msg : Json) (st : TailState) :
    ((handle_json_line sid wid msg st).1).received_output = true := by
  unfold handle_json_line
  dsimp only
  split_ifs <;>
    simp [handle_text_event_received, handle_tool_event_received,
      handle_tool_result_event_received, handle_user_event_received,
      handle_thinking_event_received, handle_result_event_received,
      handle_step_finish_event_received]

lemma capture_session_keys_spec (keys : List String) (msg : Json) (cur : String) :
    capture_session_keys keys msg cur
      = (first_nonempty_sid (keys.map (session_key_lookup msg))).getD cur := by
  induction keys with
  | nil => simp [capture_session_keys, first_nonempty_sid]
  | cons key rest ih =>
    simp only [capture_session_keys, List.map, first_nonempty_sid]
    cases h : session_key_lookup msg key with
    | none => simpa [first_nonempty_sid] using ih
    | some sid =>
      by_cases he : sid.isEmpty
      · simpa [first_nonempty_sid, he] using ih
      · simp [first_nonempty_sid, he]

/-- The claim C4 as amended: a parsed line overwrites the running backend
session identifier with the first non-empty value it offers under the keys
sessionID, sessionId, session_id (top level or nested under the part
object); a line offering no non-empty identifier, and any skipped line,
leaves the identifier unchanged.  In particular the latest non-empty value
wins, not the first. -/
theorem c4_amended_theorem (sid wid : String) (st : TailState) (l : Line) :
    ((processLine sid wid st l).1).opencode_session_id
      = (match l with
         | .json msg => (spec_session_capture msg).getD st.opencode_session_id
         | _ => st.opencode_session_id) := by
  cases l with
  | empty => rfl
  | meta => rfl
  | unparsable => rfl
  | json msg =>
    simp only [processLine, handle_json_line_sid, capture_session_id,
      capture_session_keys_spec, spec_session_capture, List.map]

/-- Line of the claim C4 counterexample carrying the first identifier. -/
def c4_msg_a : Json := Json.obj [("sessionID", Json.str "sid-a")]

/-- Line of the claim C4 counterexample carrying the second identifier. -/
def c4_msg_b : Json := Json.obj [("sessionID", Json.str "sid-b")]

/-- The claim C4 refuted: feeding two lines that both carry a non-empty
session identifier leaves the second value in the accumulator, so the first
non-empty value does not win and later lines do overwrite an already-set
identifier. -/
theorem c4_counterexample :
    ((processLines "sess" "wt" initTailState
        [Line.json c4_msg_a, Line.json c4_msg_b]).1).opencode_session_id = "sid-b"
    ∧ ((processLines "sess" "wt" initTailState [Line.json c4_msg_a]).1).opencode_session_id
        = "sid-a"
    ∧ "sid-b" ≠ "sid-a" :=
  ⟨rfl, rfl, by decide⟩

/-- The claim C3: for one supervision-loop iteration, the exit checks are
evaluated exactly in the priority order completion signal, external
cancellation, dead-process timeout, interactive stall, startup timeout.
The exit tag the loop produces on a cons trace equals the first-true pick
of `exit_priority` over the post-processing state; when no condition holds
the loop continues into the remaining trace.  In particular, whenever two
or more conditions hold in the same iteration, the earliest-listed one
decides the terminal outcome. -/
theorem c3_exit_priority_order (sid wid uuid : String) (st : TailState) (lastOut : Nat)
    (acc : List Event) (iter : IterEnv) (rest : List IterEnv) :
    (tailLoop sid wid uuid st lastOut acc (iter :: rest)).map RunOutcome.exit
      = (exit_priority (processLines sid wid st iter.lines).1 iter
          (if iter.lines.isEmpty then lastOut else iter.now)).elim
          ((tailLoop sid wid uuid (processLines sid wid st iter.lines).1
              (if iter.lines.isEmpty then lastOut else iter.now)
              (acc ++ (processLines sid wid st iter.lines).2) rest).map RunOutcome.exit)
          some := by
  simp only [tailLoop]
  split_ifs <;>
    simp_all [exit_priority, cond_completed, cond_external_cancel, cond_dead_process,
      cond_stall, cond_startup] <;>
    split_ifs <;> simp_all <;> first | omega | tauto

/-- The claim C1 as amended: when an iteration ends with the loop still
marked incomplete, the session still registered, output already received,
the process alive, the silence gap above the 30-second stall timeout, and
the most recent event type one of text, content, assistant, step_start,
the loop returns immediately (whatever trace remains): it appends exactly
one synthesized AskUserQuestion tool call whose question is the last text
seen, or the fixed default prompt when no text has been seen yet, emits it
as tool-use and tool-block events followed by a done event, kills the
subprocess, and returns cancelled false with the synthesized call in the
tool-call list and content blocks. -/
theorem c1_amended_theorem (sid wid uuid : String) (st : TailState) (lastOut : Nat)
    (acc : List Event) (iter : IterEnv) (rest : List IterEnv)
    (h1 : (processLines sid wid st iter.lines).1.completed = false)
    (h2 : iter.registry_running = true)
    (h3 : (processLines sid wid st iter.lines).1.received_output = true)
    (h4 : iter.process_alive = true)
    (h5 : iter.now - (if iter.lines.isEmpty then lastOut else iter.now)
            > interactive_stall_timeout)
    (h6 : stall_event_type (processLines sid wid st iter.lines).1.last_event_type) :
    tailLoop sid wid uuid st lastOut acc (iter :: rest)
      = some ⟨⟨(processLines sid wid st iter.lines).1.full_content,
               (processLines sid wid st iter.lines).1.opencode_session_id,
               (processLines sid wid st iter.lines).1.tool_calls
                 ++ [⟨"opencode_ask_" ++ uuid, "AskUserQuestion",
                      ask_user_input
                        (if (processLines sid wid st iter.lines).1.last_text_content.isEmpty
                         then default_stall_question
                         else (processLines sid wid st iter.lines).1.last_text_content),
                      none, none⟩],
               (processLines sid wid st iter.lines).1.content_blocks
                 ++ [ContentBlock.toolUse ("opencode_ask_" ++ uuid)],
               false, none⟩,
             acc ++ (processLines sid wid st iter.lines).2
               ++ [Event.toolUse sid wid ("opencode_ask_" ++ uuid) "AskUserQuestion"
                     (ask_user_input
                        (if (processLines sid wid st iter.lines).1.last_text_content.isEmpty
                         then default_stall_question
                         else (processLines sid wid st iter.lines).1.last_text_content)) none,
                   Event.toolBlock sid wid ("opencode_ask_" ++ uuid),
                   Event.done sid wid],
             true, ExitCause.stall⟩ := by
  simp only [tailLoop]
  simp [h1, h2, h3, h4, h5, h6, mk_response]

/-- Step-start line of the claim C1 counterexample. -/
def c1_step_start_line : Line := Line.json (Json.obj [("type", Json.str "step_start")])

/-- Trace of the claim C1 counterexample: one step-start line, then silence
past the stall timeout while alive and registered. -/
def c1_trace : List IterEnv :=
  [⟨[c1_step_start_line], true, true, 0⟩, ⟨[], true, true, 30001⟩]

/-- The claim C1 refuted on the question payload: a run whose only output is
a step-start event stalls with the premise of the claim satisfied, yet the
synthesized AskUserQuestion does not carry the last text seen (no text was
ever seen and the transcript is empty); it carries the fixed default prompt
instead. -/
theorem c1_counterexample :
    (runTail "sess" "wt" "u0" c1_trace).map
        (fun out => (out.exit, out.response.content,
          out.response.tool_calls.map (fun tc => (tc.name, tc.input))))
      = some (ExitCause.stall, "",
          [("AskUserQuestion", ask_user_input default_stall_question)])
    ∧ default_stall_question ≠ "" :=
  ⟨rfl, by decide⟩

/-- Text line of the claim C1 witness run. -/
def c1_text_line : Line :=
  Line.json (Json.obj [("type", Json.str "text"),
                       ("text", Json.str "Which file should I edit?")])

/-- State of the claim C1 witness after its first poll. -/
def c1_wit_st : TailState := (processLines "sess" "wt" initTailState [c1_text_line]).1

/-- Silent iteration of the claim C1 witness, past the stall timeout. -/
def c1_wit_iter : IterEnv := ⟨[], true, true, 30001⟩

theorem c1_amended_witness :
    (processLines "sess" "wt" c1_wit_st c1_wit_iter.lines).1.completed = false
    ∧ c1_wit_iter.registry_running = true
    ∧ (processLines "sess" "wt" c1_wit_st c1_wit_iter.lines).1.received_output = true
    ∧ c1_wit_iter.process_alive = true
    ∧ c1_wit_iter.now - (if c1_wit_iter.lines.isEmpty then 0 else c1_wit_iter.now)
        > interactive_stall_timeout
    ∧ stall_event_type (processLines "sess" "wt" c1_wit_st c1_wit_iter.lines).1.last_event_type
    ∧ tailLoop "sess" "wt" "u1" c1_wit_st 0 [] [c1_wit_iter]
      = some ⟨⟨(processLines "sess" "wt" c1_wit_st c1_wit_iter.lines).1.full_content,
               (processLines "sess" "wt" c1_wit_st c1_wit_iter.lines).1.opencode_session_id,
               (processLines "sess" "wt" c1_wit_st c1_wit_iter.lines).1.tool_calls
                 ++ [⟨"opencode_ask_" ++ "u1", "AskUserQuestion",
                      ask_user_input
                        (if (processLines "sess" "wt" c1_wit_st c1_wit_iter.lines).1.last_text_content.isEmpty
                         then default_stall_question
                         else (processLines "sess" "wt" c1_wit_st c1_wit_iter.lines).1.last_text_content),
                      none, none⟩],
               (processLines "sess" "wt" c1_wit_st c1_wit_iter.lines).1.content_blocks
                 ++ [ContentBlock.toolUse ("opencode_ask_" ++ "u1")],
               false, none⟩,
             [] ++ (processLines "sess" "wt" c1_wit_st c1_wit_iter.lines).2
               ++ [Event.toolUse "sess" "wt" ("opencode_ask_" ++ "u1") "AskUserQuestion"
                     (ask_user_input
                        (if (processLines "sess" "wt" c1_wit_st c1_wit_iter.lines).1.last_text_content.isEmpty
                         then default_stall_question
                         else (processLines "sess" "wt" c1_wit_st c1_wit_iter.lines).1.last_text_content)) none,
                   Event.toolBlock "sess" "wt" ("opencode_ask_" ++ "u1"),
                   Event.done "sess" "wt"],
             true, ExitCause.stall⟩ :=
  ⟨rfl, rfl, rfl, rfl, by decide, Or.inl rfl,
    c1_amended_theorem "sess" "wt" "u1" c1_wit_st 0 [] c1_wit_iter []
      rfl rfl rfl rfl (by decide) (Or.inl rfl)⟩

/-- The claim C2: when an iteration ends with the loop still marked
incomplete, the session still registered, output already received, the
process dead, and the silence gap above the 2-second dead-process timeout,
the run terminates; it is Cancelled (cancelled true, no done event) exactly
when both the transcript and the tool-call list are empty, and otherwise
Completed (cancelled false, done event emitted) with whatever transcript,
tool calls and content blocks were accumulated. -/
theorem c2_dead_process_exit (sid wid uuid : String) (st : TailState) (lastOut : Nat)
    (acc : List Event) (iter : IterEnv) (rest : List IterEnv)
    (h1 : (processLines sid wid st iter.lines).1.completed = false)
    (h2 : iter.registry_running = true)
    (h3 : (processLines sid wid st iter.lines).1.received_output = true)
    (h4 : iter.process_alive = false)
    (h5 : iter.now - (if iter.lines.isEmpty then lastOut else iter.now)
            > dead_process_timeout) :
    tailLoop sid wid uuid st lastOut acc (iter :: rest)
      = if !(processLines sid wid st iter.lines).1.full_content.isEmpty
            || !(processLines sid wid st iter.lines).1.tool_calls.isEmpty then
          some ⟨mk_response (processLines sid wid st iter.lines).1 false
                  (processLines sid wid st iter.lines).1.usage,
                acc ++ (processLines sid wid st iter.lines).2 ++ [Event.done sid wid],
                false, ExitCause.deadProcess⟩
        else
          some ⟨mk_response (processLines sid wid st iter.lines).1 true
                  (processLines sid wid st iter.lines).1.usage,
                acc ++ (processLines sid wid st iter.lines).2,
                false, ExitCause.deadProcess⟩ := by
  simp only [tailLoop]
  simp [h1, h2, h3, h4, h5]

/-- Text line of the claim C2 witness run. -/
def c2_text_line : Line :=
  Line.json (Json.obj [("type", Json.str "text"), ("text", Json.str "Hello")])

/-- State of the claim C2 witness after its first poll. -/
def c2_wit_st : TailState := (processLines "s2" "w2" initTailState [c2_text_line]).1

/-- Silent iteration of the claim C2 witness: the process died and the
dead-process timeout elapsed. -/
def c2_wit_iter : IterEnv := ⟨[], true, false, 2001⟩

theorem c2_dead_process_witness :
    (processLines "s2" "w2" c2_wit_st c2_wit_iter.lines).1.completed = false
    ∧ c2_wit_iter.registry_running = true
    ∧ (processLines "s2" "w2" c2_wit_st c2_wit_iter.lines).1.received_output = true
    ∧ c2_wit_iter.process_alive = false
    ∧ c2_wit_iter.now - (if c2_wit_iter.lines.isEmpty then 0 else c2_wit_iter.now)
        > dead_process_timeout
    ∧ tailLoop "s2" "w2" "u2" c2_wit_st 0 [] [c2_wit_iter]
      = if !(processLines "s2" "w2" c2_wit_st c2_wit_iter.lines).1.full_content.isEmpty
            || !(processLines "s2" "w2" c2_wit_st c2_wit_iter.lines).1.tool_calls.isEmpty then
          some ⟨mk_response (processLines "s2" "w2" c2_wit_st c2_wit_iter.lines).1 false
                  (processLines "s2" "w2" c2_wit_st c2_wit_iter.lines).1.usage,
                [] ++ (processLines "s2" "w2" c2_wit_st c2_wit_iter.lines).2
                  ++ [Event.done "s2" "w2"],
                false, ExitCause.deadProcess⟩
        else
          some ⟨mk_response (processLines "s2" "w2" c2_wit_st c2_wit_iter.lines).1 true
                  (processLines "s2" "w2" c2_wit_st c2_wit_iter.lines).1.usage,
                [] ++ (processLines "s2" "w2" c2_wit_st c2_wit_iter.lines).2,
                false, ExitCause.deadProcess⟩ :=
  ⟨rfl, rfl, rfl, rfl, by decide,
    c2_dead_process_exit "s2" "w2" "u2" c2_wit_st 0 [] c2_wit_iter []
      rfl rfl rfl rfl (by decide)⟩

lemma is_process_running_unregister (reg : Registry) (sid : String) :
    is_process_running (unregister_process reg sid) sid = false := by
  simp only [is_process_running, unregister_process]
  rw [List.any_eq_false]
  intro e hmem
  rw [List.mem_filter] at hmem
  simpa using hmem.2

/-- The claim C5 as amended: every terminal state, the interactive-stall
(StalledAskingUser) one included, unregisters the session from the process
registry before `execute_opencode_detached` returns: whenever the call
returns, the returned registry no longer holds the session. -/
theorem c5_amended_theorem (reg : Registry) (sid wid uuid : String) (pid : Nat)
    (trace : List IterEnv) (out : RunOutcome) (reg2 : Registry)
    (h : execute_opencode_detached reg sid wid uuid pid trace = some (out, reg2)) :
    is_process_running reg2 sid = false := by
  unfold execute_opencode_detached at h
  cases hr : runTail sid wid uuid trace with
  | none => rw [hr] at h; cases h
  | some o =>
    rw [hr] at h
    simp only [Option.some.injEq, Prod.mk.injEq] at h
    rw [← h.2]
    exact is_process_running_unregister _ sid

/-- Trace of the claim C5 counterexample: a run that terminates through the
interactive-stall path. -/
def c5_trace : List IterEnv :=
  [⟨[Line.json (Json.obj [("type", Json.str "step_start")])], true, true, 0⟩,
   ⟨[], true, true, 30001⟩]

/-- The claim C5 refuted on its second half: a run that ends in the
interactive-stall state has its session unregistered before the call
returns, exactly like every other terminal state (an unrelated session
stays registered). -/
theorem c5_counterexample :
    (execute_opencode_detached [("other", 7)] "s5" "w5" "u5" 42 c5_trace).map
        (fun p => (p.1.exit, is_process_running p.2 "s5", is_process_running p.2 "other"))
      = some (ExitCause.stall, false, true) := rfl

/-- Trace of the claim C5 witness: a run completing through a result line. -/
def c5_wit_trace : List IterEnv :=
  [⟨[Line.json (Json.obj [("type", Json.str "result")])], true, true, 0⟩]

theorem c5_amended_witness :
    execute_opencode_detached [] "s5w" "w5w" "u5w" 9 c5_wit_trace
      = some (⟨⟨"", "", [], [], false, none⟩, [Event.done "s5w" "w5w"],
               false, ExitCause.completedSignal⟩, [])
    ∧ is_process_running [] "s5w" = false :=
  ⟨rfl,
   c5_amended_theorem [] "s5w" "w5w" "u5w" 9 c5_wit_trace
     ⟨⟨"", "", [], [], false, none⟩, [Event.done "s5w" "w5w"],
      false, ExitCause.completedSignal⟩ [] rfl⟩

lemma tailLoop_stall_usage (sid wid uuid : String) :
    ∀ (trace : List IterEnv) (st : TailState) (lastOut : Nat) (acc : List Event)
      (out : RunOutcome),
      tailLoop sid wid uuid st lastOut acc trace = some out →
      out.exit = ExitCause.stall → out.response.usage = none := by
  intro trace
  induction trace with
  | nil =>
    intro st lastOut acc out h hexit
    simp [tailLoop] at h
  | cons iter rest ih =>
    intro st lastOut acc out h hexit
    simp only [tailLoop] at h
    split_ifs at h <;>
      first
        | exact ih _ _ _ _ h hexit
        | (simp only [Option.some.injEq] at h; subst h; simp_all [mk_response])

/-- The claim C10: a run that terminates through the interactive-stall path
always returns usage none (the stall return hardcodes it), while still
returning the accumulated transcript, tool calls and content blocks carried
by the rest of the outcome. -/
theorem c10_stall_usage_none (sid wid uuid : String) (trace : List IterEnv)
    (out : RunOutcome) (h : runTail sid wid uuid trace = some out)
    (hexit : out.exit = ExitCause.stall) :
    out.response.usage = none :=
  tailLoop_stall_usage sid wid uuid trace initTailState 0 [] out h hexit

/-- Trace of the claim C10 witness: a stalling run. -/
def c10_trace : List IterEnv :=
  [⟨[Line.json (Json.obj [("type", Json.str "step_start")])], true, true, 0⟩,
   ⟨[], true, true, 30001⟩]

/-- Outcome of the claim C10 witness run. -/
def c10_out : RunOutcome :=
  ⟨⟨"", "", [⟨"opencode_ask_" ++ "u9", "AskUserQuestion",
              ask_user_input default_stall_question, none, none⟩],
    [ContentBlock.toolUse ("opencode_ask_" ++ "u9")], false, none⟩,
   [Event.toolUse "s10" "w10" ("opencode_ask_" ++ "u9") "AskUserQuestion"
      (ask_user_input default_stall_question) none,
    Event.toolBlock "s10" "w10" ("opencode_ask_" ++ "u9"),
    Event.done "s10" "w10"],
   true, ExitCause.stall⟩

theorem c10_stall_usage_witness :
    runTail "s10" "w10" "u9" c10_trace = some c10_out
    ∧ c10_out.exit = ExitCause.stall
    ∧ c10_out.response.usage = none :=
  ⟨rfl, rfl, c10_stall_usage_none "s10" "w10" "u9" c10_trace c10_out rfl rfl⟩

lemma tailLoop_empty_step (sid wid uuid : String) (st : TailState) (lastOut : Nat)
    (acc : List Event) (iter : IterEnv) (rest : List IterEnv)
    (hc : st.completed = false) (hr : st.received_output = false)
    (hl : iter.lines = []) :
    tailLoop sid wid uuid st lastOut acc (iter :: rest)
      = if iter.registry_running = false then
          some ⟨mk_response st true st.usage, acc, false, ExitCause.externalCancel⟩
        else if iter.now > startup_timeout then
          some ⟨mk_response st true st.usage, acc, false, ExitCause.startupTimeout⟩
        else tailLoop sid wid uuid st lastOut acc rest := by
  simp only [tailLoop, hl]
  simp [processLines, hc, hr]

lemma tailLoop_empty_trace (sid wid uuid : String) (st : TailState)
    (hc : st.completed = false) (hr : st.received_output = false) :
    ∀ (trace : List IterEnv) (lastOut : Nat) (acc : List Event),
      (∀ iter ∈ trace, iter.lines = []) →
      (∀ out, tailLoop sid wid uuid st lastOut acc trace = some out →
        out.response = mk_response st true st.usage ∧ out.events = acc
          ∧ out.killed = false)
      ∧ ((∃ iter ∈ trace, iter.now > startup_timeout)
          → ∃ out, tailLoop sid wid uuid st lastOut acc trace = some out) := by
  intro trace
  induction trace with
  | nil =>
    intro lastOut acc hempty
    constructor
    · intro out h
      simp [tailLoop] at h
    · rintro ⟨iter, hmem, -⟩
      simp at hmem
  | cons iter rest ih =>
    intro lastOut acc hempty
    have hl : iter.lines = [] := hempty iter (List.mem_cons_self iter rest)
    have hrest : ∀ it ∈ rest, it.lines = [] :=
      fun it hit => hempty it (List.mem_cons_of_mem iter hit)
    have hstep := tailLoop_empty_step sid wid uuid st lastOut acc iter rest hc hr hl
    have ihr := ih lastOut acc hrest
    by_cases hreg : iter.registry_running = false
    · constructor
      · intro out h
        rw [hstep, if_pos hreg] at h
        cases h
        exact ⟨rfl, rfl, rfl⟩
      · intro _
        exact ⟨⟨mk_response st true st.usage, acc, false, ExitCause.externalCancel⟩,
          by rw [hstep, if_pos hreg]⟩
    · by_cases htime : iter.now > startup_timeout
      · constructor
        · intro out h
          rw [hstep, if_neg hreg, if_pos htime] at h
          cases h
          exact ⟨rfl, rfl, rfl⟩
        · intro _
          exact ⟨⟨mk_response st true st.usage, acc, false, ExitCause.startupTimeout⟩,
            by rw [hstep, if_neg hreg, if_pos htime]⟩
      · constructor
        · intro out h
          rw [hstep, if_neg hreg, if_neg htime] at h
          exact ihr.1 out h
        · rintro ⟨it, hmem, hit⟩
          rcases List.mem_cons.mp hmem with heq | hmemr
          · subst heq
            exact absurd hit htime
          · obtain ⟨out, hout⟩ := ihr.2 ⟨it, hmemr, hit⟩
            refine ⟨out, ?_⟩
            rw [hstep, if_neg hreg, if_neg htime]
            exact hout

/-- The claim C9: a run whose polls never return any output terminates as a
normal typed result with cancelled true and an empty transcript (empty
session id, tool calls, content blocks and usage, no events, no kill)
whenever it terminates at all, and it does terminate once an iteration
passes the 120-second startup timeout. -/
theorem c9_startup_timeout_result (sid wid uuid : String) (trace : List IterEnv)
    (hempty : ∀ iter ∈ trace, iter.lines = []) :
    ((∃ iter ∈ trace, iter.now > startup_timeout)
        → ∃ out, runTail sid wid uuid trace = some out)
    ∧ (∀ out, runTail sid wid uuid trace = some out →
        out.response = ⟨"", "", [], [], true, none⟩ ∧ out.events = []
          ∧ out.killed = false) := by
  have h := tailLoop_empty_trace sid wid uuid initTailState rfl rfl trace 0 [] hempty
  exact ⟨h.2, h.1⟩

/-- Trace of the claim C9 witness: silent polls past the startup timeout. -/
def c9_wit_trace : List IterEnv :=
  [⟨[], true, true, 60000⟩, ⟨[], true, true, 120001⟩]

theorem c9_startup_timeout_witness :
    (∀ iter ∈ c9_wit_trace, iter.lines = [])
    ∧ runTail "s9" "w9" "u9w" c9_wit_trace
        = some ⟨⟨"", "", [], [], true, none⟩, [], false, ExitCause.startupTimeout⟩
    ∧ (⟨⟨"", "", [], [], true, none⟩, [], false,
        ExitCause.startupTimeout⟩ : RunOutcome).response = ⟨"", "", [], [], true, none⟩ := by
  refine ⟨by simp [c9_wit_trace], rfl, ?_⟩
  exact ((c9_startup_timeout_result "s9" "w9" "u9w" c9_wit_trace (by simp [c9_wit_trace])).2
    ⟨⟨"", "", [], [], true, none⟩, [], false, ExitCause.startupTimeout⟩ rfl).1

/-- The claim C8 as amended: every tool-invocation event (type tool_use or
tool_call) appends exactly one tool-call record built from the extracted
id, name, input and output, pushes one ToolUse content block, and emits a
tool-use and a tool-block event; exactly when the embedded status equals
completed an output is attached and a ToolResult is emitted in the same
step, and a completed string output longer than 2000 is truncated at 2000
with the trailing marker.  Non-string outputs are rendered as JSON in full,
untruncated (this is the part the counterexample forces). -/
theorem c8_amended_theorem (sid wid : String) (st : TailState) (msg : Json) (s : String)
    (h : ((msg.get "type").bind Json.asStr).getD "" = "tool_use"
         ∨ ((msg.get "type").bind Json.asStr).getD "" = "tool_call") :
    (processLine sid wid st (Line.json msg)).2
      = [Event.toolUse sid wid (tool_event_id msg) (tool_event_name msg)
           (tool_event_input msg) none,
         Event.toolBlock sid wid (tool_event_id msg)]
        ++ (match tool_event_output msg with
            | some o => [Event.toolResult sid wid (tool_event_id msg) o]
            | none => [])
    ∧ (processLine sid wid st (Line.json msg)).1.tool_calls
      = st.tool_calls ++ [⟨tool_event_id msg, tool_event_name msg, tool_event_input msg,
                           tool_event_output msg, none⟩]
    ∧ (processLine sid wid st (Line.json msg)).1.content_blocks
      = st.content_blocks ++ [ContentBlock.toolUse (tool_event_id msg)]
    ∧ (tool_event_status msg = "completed"
        → (tool_event_state msg).bind (fun stobj => stobj.get "output") = some (Json.str s)
        → tool_event_output msg
            = some (if s.length > 2000 then s.take 2000 ++ truncation_marker else s))
    ∧ (tool_event_status msg ≠ "completed" → tool_event_output msg = none) := by
  refine ⟨?_, ?_, ?_, ?_, ?_⟩
  · rcases h with h | h <;> simp [processLine, handle_json_line, h, handle_tool_event]
  · rcases h with h | h <;> simp [processLine, handle_json_line, h, handle_tool_event]
  · rcases h with h | h <;> simp [processLine, handle_json_line, h, handle_tool_event]
  · intro hstat hout
    simp [tool_event_output, hstat, hout, truncate_tool_output, Json.asStr]
  · intro hstat
    simp [tool_event_output, hstat]

/-- Message of the claim C8 witness: a completed tool event with a short
string output. -/
def c8_wit_msg : Json :=
  Json.obj [("type", Json.str "tool_use"),
            ("part", Json.obj
              [("callID", Json.str "call-1"), ("tool", Json.str "bash"),
               ("state", Json.obj
                 [("status", Json.str "completed"),
                  ("input", Json.obj []), ("output", Json.str "ok")])])]

theorem c8_amended_witness :
    (((c8_wit_msg.get "type").bind Json.asStr).getD "" = "tool_use"
      ∨ ((c8_wit_msg.get "type").bind Json.asStr).getD "" = "tool_call")
    ∧ (processLine "s8" "w8" initTailState (Line.json c8_wit_msg)).2
      = [Event.toolUse "s8" "w8" (tool_event_id c8_wit_msg) (tool_event_name c8_wit_msg)
           (tool_event_input c8_wit_msg) none,
         Event.toolBlock "s8" "w8" (tool_event_id c8_wit_msg)]
        ++ (match tool_event_output c8_wit_msg with
            | some o => [Event.toolResult "s8" "w8" (tool_event_id c8_wit_msg) o]
            | none => [])
    ∧ (processLine "s8" "w8" initTailState (Line.json c8_wit_msg)).1.tool_calls
      = initTailState.tool_calls
          ++ [⟨tool_event_id c8_wit_msg, tool_event_name c8_wit_msg,
               tool_event_input c8_wit_msg, tool_event_output c8_wit_msg, none⟩]
    ∧ tool_event_output c8_wit_msg
      = some (if ("ok" : String).length > 2000
              then ("ok" : String).take 2000 ++ truncation_marker else "ok") := by
  have H := c8_amended_theorem "s8" "w8" initTailState c8_wit_msg "ok" (Or.inl rfl)
  exact ⟨Or.inl rfl, H.1, H.2.1, H.2.2.2.1 rfl rfl⟩

/-- Long string of the claim C8 counterexample. -/
def c8_long : String := String.mk (List.replicate 2050 'a')

/-- Non-string completed output of the claim C8 counterexample. -/
def c8_long_output : Json := Json.arr [Json.str c8_long]

/-- Message of the claim C8 counterexample: a completed tool event whose
output is an array wrapping a long string. -/
def c8_bad_msg : Json :=
  Json.obj [("type", Json.str "tool_use"),
            ("part", Json.obj
              [("callID", Json.str "call-9"), ("tool", Json.str "read"),
               ("state", Json.obj
                 [("status", Json.str "completed"),
                  ("output", c8_long_output)])])]

lemma flatten_replicate_singleton (n : Nat) (c : Char) :
    (List.replicate n [c]).flatten = List.replicate n c := by
  induction n with
  | zero => rfl
  | succ k ih => simp [List.replicate, ih]

lemma string_mk_length (l : List Char) : (String.mk l).length = l.length := rfl

lemma c8_render_eq :
    Json.render c8_long_output
      = String.mk (('[' :: '"' :: (List.replicate 2050 'a' ++ ['"'])) ++ [']']) := by
  rw [show c8_long_output = Json.arr [Json.str c8_long] from rfl]
  rw [show c8_long = String.mk (List.replicate 2050 'a') from rfl]
  simp only [Json.render, renderElems, quoteJsonString]
  rw [List.map_replicate, show escapeJsonChar 'a' = ['a'] from rfl,
    flatten_replicate_singleton]
  rfl

/-- The claim C8 refuted on the truncation rule: a completed tool event
whose output is not a string but renders to more than 2000 characters is
emitted as a ToolResult in full, neither cut at 2000 nor suffixed with the
truncation marker. -/
theorem c8_counterexample :
    tool_event_output c8_bad_msg = some (Json.render c8_long_output)
    ∧ (processLine "s8b" "w8b" initTailState (Line.json c8_bad_msg)).2
      = [Event.toolUse "s8b" "w8b" "call-9" "read" Json.null none,
         Event.toolBlock "s8b" "w8b" "call-9",
         Event.toolResult "s8b" "w8b" "call-9" (Json.render c8_long_output)]
    ∧ (Json.render c8_long_output).length = 2054
    ∧ 2054 > 2000
    ∧ ¬ truncation_marker.data <:+ (Json.render c8_long_output).data := by
  refine ⟨rfl, rfl, ?_, by norm_num, ?_⟩
  · rw [c8_render_eq, string_mk_length]
    simp only [List.length_append, List.length_cons, List.length_replicate, List.length_nil]
  · rw [c8_render_eq]
    rintro ⟨t, ht⟩
    have hlast : (t ++ truncation_marker.data).getLast? = some ')' := by
      rw [List.getLast?_append]
      rfl
    rw [ht] at hlast
    have hlast2 :
        ((('[' :: '"' :: (List.replicate 2050 'a' ++ ['"'])) ++ [']']) : List Char).getLast?
          = some ']' := by
      rw [List.getLast?_append]
      rfl
    rw [show (String.mk (('[' :: '"' :: (List.replicate 2050 'a' ++ ['"'])) ++ [']'])).data
          = ('[' :: '"' :: (List.replicate 2050 'a' ++ ['"'])) ++ [']'] from rfl] at hlast
    rw [hlast2] at hlast
    cases hlast

end Jean
